import Mathlib

/-!
# Verification of the MPT portfolio-optimization core (`mpt_solver.py`)

Shallow embedding of the portfolio-optimization engine: the fixed asset
statistics table, the portfolio metrics calculator, the constrained optimizer
wrapper, the efficient-frontier builder, the risk mapper, and the allocation
formatter.

Conventions of the embedding:
* Real arithmetic of the source is modelled exactly over `ℚ`.
* A volatility value `np.sqrt(v)` (and the derived `max_drawdown`) is an
  irrational real; it is carried symbolically as a pair `(c, r) : ℚ × ℚ`
  denoting `c * Real.sqrt r`, so that every definition stays executable.
  `np.sqrt` of a negative argument is NaN in numpy; the development proves
  (`portfolio_variance_nonneg`) that the radicand produced by the metrics
  calculator is never negative, so the NaN case is unreachable.
* The external SLSQP solver (`scipy.optimize.minimize`) is an oracle
  parameter: a function from the `(target_risk, target_return)` call
  configuration to either a thrown exception (`Except.error`) or a raw solver
  result.  The control flow around the solver is translated from the source.
* Python's in-place numpy mutation in `map_risk_to_portfolio` is modelled by
  explicit state passing: the function returns the updated frontier list next
  to its result.  Python's `int()` truncation and signed list indexing are
  modelled by `pyInt` and `pyIdx`.
-/

namespace MPT

/-- Number of funds in the fixed universe (`len(FUNDS_NAMES)`). -/
def num_funds : ℕ := 10

/-- A weight vector over the 10-asset universe. -/
abbrev Weights := Fin 10 → ℚ

/-- Constant `FUNDS_NAMES` from the source. -/
def FUNDS_NAMES : Fin 10 → String :=
  !["货币基金A", "债券基金B", "混合基金C", "股票基金D",
    "指数基金E", "QDII基金F", "REITs基金G", "商品基金H",
    "稳健理财I", "成长精选J"]

/-- Constant `EXPECTED_RETURNS` from the source: per-fund annualized expected returns. -/
def EXPECTED_RETURNS : Fin 10 → ℚ :=
  ![0.025, 0.045, 0.085, 0.155, 0.125, 0.105, 0.095, 0.135, 0.035, 0.185]

/-- Constant `COVARIANCE_MATRIX` from the source: 10×10 return covariances. -/
def COVARIANCE_MATRIX : Fin 10 → Fin 10 → ℚ :=
  ![![0.0008, 0.0003, 0.0001, 0.0000, 0.0001, 0.0001, 0.0001, 0.0000, 0.0006, 0.0000],
    ![0.0003, 0.0015, 0.0005, 0.0001, 0.0003, 0.0002, 0.0002, 0.0001, 0.0008, 0.0001],
    ![0.0001, 0.0005, 0.0040, 0.0025, 0.0030, 0.0020, 0.0018, 0.0022, 0.0003, 0.0028],
    ![0.0000, 0.0001, 0.0025, 0.0225, 0.0150, 0.0100, 0.0080, 0.0120, 0.0001, 0.0180],
    ![0.0001, 0.0003, 0.0030, 0.0150, 0.0144, 0.0085, 0.0075, 0.0095, 0.0002, 0.0120],
    ![0.0001, 0.0002, 0.0020, 0.0100, 0.0085, 0.0090, 0.0065, 0.0078, 0.0001, 0.0085],
    ![0.0001, 0.0002, 0.0018, 0.0080, 0.0075, 0.0065, 0.0064, 0.0055, 0.0002, 0.0070],
    ![0.0000, 0.0001, 0.0022, 0.0120, 0.0095, 0.0078, 0.0055, 0.0169, 0.0001, 0.0105],
    ![0.0006, 0.0008, 0.0003, 0.0001, 0.0002, 0.0001, 0.0002, 0.0001, 0.0012, 0.0001],
    ![0.0000, 0.0001, 0.0028, 0.0180, 0.0120, 0.0085, 0.0070, 0.0105, 0.0001, 0.0256]]

/-- A symbolic nonnegative multiple of a square root: `(c, r)` denotes the
real number `c * Real.sqrt r` (theorem statements spell this interpretation
out inline, keeping every definition executable).  Used for the `volatility`
and `max_drawdown` floats of the source, whose exact values are irrational. -/
abbrev RootQ := ℚ × ℚ

/-- Embedding of `np.sqrt` on an exact rational, represented symbolically.  For a negative
argument numpy would return NaN; `portfolio_variance_nonneg` shows the metrics
calculator never passes a negative radicand. -/
def np_sqrt (x : ℚ) : RootQ := (1, x)

/-- Scalar multiple of a symbolic root (`volatility * 2.5` in the source). -/
def RootQ.scale (s : RootQ) (k : ℚ) : RootQ := (s.1 * k, s.2)

/-- Embedding of `np.dot(weights, EXPECTED_RETURNS)` (source line 72). -/
def expected_return_of (w : Weights) : ℚ := ∑ i, w i * EXPECTED_RETURNS i

/-- The quadratic form `np.dot(weights.T, np.dot(COVARIANCE_MATRIX, weights))`
(source line 75): the exact portfolio variance, the radicand of the
volatility. -/
def portfolio_variance (w : Weights) : ℚ :=
  ∑ i, w i * (∑ j, COVARIANCE_MATRIX i j * w j)

/-- Result triple of `calculate_portfolio_metrics`. -/
structure Metrics where
  expected_return : ℚ
  volatility : RootQ
  max_drawdown : RootQ
  deriving DecidableEq, Repr

/-- Embedding of `MPTSolver.calculate_portfolio_metrics` (source lines 61–82):
expected return, volatility `sqrt(wᵀΣw)` (no clamping of the radicand appears
in the source), and the heuristic max drawdown `volatility * 2.5`. -/
def calculate_portfolio_metrics (w : Weights) : Metrics :=
  let expected_return := expected_return_of w
  let volatility := np_sqrt (portfolio_variance w)
  let max_drawdown := volatility.scale 2.5
  { expected_return := expected_return, volatility := volatility,
    max_drawdown := max_drawdown }

/-- Raw output of a `scipy.optimize.minimize` call: best-found point `x`,
`success` flag and diagnostic `message`. -/
structure SolverResult where
  x : Weights
  success : Bool
  message : String
  deriving DecidableEq, Repr

/-- The external SLSQP solver as an oracle.  Its two arguments are the
`target_risk` and `target_return` configuration of `optimize_portfolio`
(which fully determines the objective, constraint list, bounds and the fixed
equal-weight starting point built in source lines 95–144); `Except.error`
models an exception thrown by the numerical routine. -/
abbrev Solver := Option ℚ → Option ℚ → Except String SolverResult

/-- Dictionary returned by `optimize_portfolio` (source lines 153–160). -/
structure PortfolioResult where
  weights : Weights
  expected_return : ℚ
  volatility : RootQ
  max_drawdown : RootQ
  success : Bool
  message : String
  deriving DecidableEq, Repr

/-- Embedding of `MPTSolver.optimize_portfolio` (source lines 84–160): invoke the solver
once on the given configuration and package the best-found weights with their
metrics, the success flag and the solver message.  A non-converged result is
returned normally; an exception from the solver propagates (there is no
`try` in this function and no retry). -/
def optimize_portfolio (solver : Solver)
    (target_risk target_return : Option ℚ) : Except String PortfolioResult :=
  match solver target_risk target_return with
  | .error e => .error e
  | .ok result =>
      let m := calculate_portfolio_metrics result.x
      .ok { weights := result.x
            expected_return := m.expected_return
            volatility := m.volatility
            max_drawdown := m.max_drawdown
            success := result.success
            message := result.message }

/-- One entry of the efficient frontier (source lines 194–200). -/
structure FrontierPoint where
  target_return : ℚ
  weights : Weights
  expected_return : ℚ
  volatility : RootQ
  max_drawdown : RootQ
  deriving DecidableEq, Repr

/-- Embedding of `np.argmax` over the expected-return vector: first index attaining the
maximum (source line 179). -/
def np_argmax (v : Fin 10 → ℚ) : Fin 10 :=
  (List.finRange 10).foldl (fun best i => if v i > v best then i else best) 0

/-- Embedding of `np.linspace(start, stop, num)`: `num` evenly spaced values from `start`
to `stop` inclusive (source line 186).  For `num = 1` numpy returns
`[start]`, which the formula yields since `x / 0 = 0` on `ℚ`. -/
def linspace (start stop : ℚ) (num : ℕ) : List ℚ :=
  (List.range num).map
    (fun i : ℕ => start + (i : ℚ) * (stop - start) / ((num : ℚ) - 1))

/-- The per-grid-point body of the frontier loop (source lines 190–207): call
the optimizer with `target_return = t`; keep the point only when the call
both returns without an exception and reports success. -/
def frontier_step (solver : Solver) (t : ℚ) : Option FrontierPoint :=
  match optimize_portfolio solver none (some t) with
  | .error _ => none
  | .ok r =>
      if r.success then
        some { target_return := t, weights := r.weights,
               expected_return := r.expected_return,
               volatility := r.volatility, max_drawdown := r.max_drawdown }
      else none

/-- Embedding of `MPTSolver.calculate_efficient_frontier` (source lines 162–210): solve the
unconstrained minimum-variance problem (outside any `try`, so its exception
propagates), build the target-return grid from its expected return up to 0.9
times the maximum single-asset return, and collect the grid points whose
constrained solve succeeds, in grid order. -/
def calculate_efficient_frontier (solver : Solver) (num_portfolios : ℕ) :
    Except String (List FrontierPoint) :=
  match optimize_portfolio solver none none with
  | .error e => .error e
  | .ok min_variance_result =>
      let max_return := EXPECTED_RETURNS (np_argmax EXPECTED_RETURNS)
      let target_returns :=
        linspace min_variance_result.expected_return (max_return * 0.9)
          num_portfolios
      .ok (target_returns.filterMap (frontier_step solver))

/-- Python `int()` applied to a rational: truncation toward zero. -/
def pyInt (x : ℚ) : ℤ := if 0 ≤ x then ⌊x⌋ else -⌊-x⌋

/-- Python list-index resolution: a negative index counts from the end; an
index out of `[-len, len)` raises `IndexError` (`none`). -/
def pyIdx (len : ℕ) (i : ℤ) : Option ℕ :=
  if 0 ≤ i then
    if i < (len : ℤ) then some i.toNat else none
  else
    if -i ≤ (len : ℤ) then some (len - (-i).toNat) else none

/-- Python `l[i]` with signed-index semantics. -/
def pyGet {α : Type} (l : List α) (i : ℤ) : Option α :=
  (pyIdx l.length i).bind l.get?

/-- Python `l[i] = x` with signed-index semantics (identity when the index is
invalid; the source never reaches that case because the preceding read would
already have raised). -/
def pySet {α : Type} (l : List α) (i : ℤ) (x : α) : List α :=
  match pyIdx l.length i with
  | some n => l.set n x
  | none => l

/-- The frontier index chosen for a risk score (source lines 245–248):
normalize the score from `[1,10]` to `[0,1]` and truncate
`normalized * (len - 1)` with Python `int()`. -/
def selectIndex (risk_score : ℚ) (len : ℕ) : ℤ :=
  let normalized_risk := (risk_score - 1) / 9
  pyInt (normalized_risk * ((len : ℚ) - 1))

/-- Dictionary returned by `map_risk_to_portfolio` (source lines 230–236 and
260–266). -/
structure MappedPortfolio where
  weights : Weights
  expected_return : ℚ
  volatility : RootQ
  max_drawdown : RootQ
  risk_score_used : ℚ
  deriving DecidableEq, Repr

/-- Zero out every weight strictly below 0.001 (`weights[weights < 0.001] = 0`,
source line 253). -/
def zero_small (w : Weights) : Weights :=
  fun i => if w i < 0.001 then 0 else w i

/-- Embedding of `MPTSolver.map_risk_to_portfolio` (source lines 212–266).  On an empty
frontier it returns the equal-weight fallback.  Otherwise it selects
`efficient_frontier[selectIndex …]` (Python indexing: `none` models the
`IndexError` raised when the index is out of range), zeroes the small weights
of the selected point *in place* — the returned list is the caller's frontier
after that mutation; the subsequent renormalization rebinds a fresh array and
does not touch the frontier — and returns the renormalized weights with the
selected point's metrics.  The second component of the result is the
caller-visible frontier after the call. -/
def map_risk_to_portfolio (risk_score : ℚ)
    (efficient_frontier : List FrontierPoint) :
    Option (MappedPortfolio × List FrontierPoint) :=
  if efficient_frontier.isEmpty then
    let equal_weights : Weights := fun _ => 1 / (num_funds : ℚ)
    let m := calculate_portfolio_metrics equal_weights
    some ({ weights := equal_weights
            expected_return := m.expected_return
            volatility := m.volatility
            max_drawdown := m.max_drawdown
            risk_score_used := risk_score }, efficient_frontier)
  else
    let portfolio_index := selectIndex risk_score efficient_frontier.length
    match pyGet efficient_frontier portfolio_index with
    | none => none
    | some selected_portfolio =>
        let zeroed := zero_small selected_portfolio.weights
        let frontier_after := pySet efficient_frontier portfolio_index
          { selected_portfolio with weights := zeroed }
        let weights : Weights := fun i => zeroed i / (∑ j, zeroed j)
        some ({ weights := weights
                expected_return := selected_portfolio.expected_return
                volatility := selected_portfolio.volatility
                max_drawdown := selected_portfolio.max_drawdown
                risk_score_used := risk_score }, frontier_after)

/-- Modelled from the spec (§4.1): the metrics calculator as the spec words
it, with the quadratic form clamped to 0 before the square root whenever it
is negative.  Used to compare the source behaviour against the spec's
clamping semantics. -/
def calculate_portfolio_metrics_clamped (w : Weights) : Metrics :=
  let expected_return := expected_return_of w
  let volatility := np_sqrt (max 0 (portfolio_variance w))
  let max_drawdown := volatility.scale 2.5
  { expected_return := expected_return, volatility := volatility,
    max_drawdown := max_drawdown }

/-- One entry of the formatted allocation plan (source lines 286–291). -/
structure PlanEntry where
  fund_name : String
  weight : ℚ
  weight_percentage : ℚ
  investment_amount : ℚ
  deriving DecidableEq, Repr

/-- Dictionary returned by `format_portfolio_result` (source lines 296–302). -/
structure FormattedResult where
  plan_list : List PlanEntry
  expected_return : ℚ
  expected_volatility : RootQ
  max_drawdown_estimate : RootQ
  risk_score_used : ℚ
  deriving DecidableEq, Repr

/-- Stable insertion of an entry into a weight-descending list: the new entry
goes after every existing entry of greater or equal weight. -/
def insertByWeight (e : PlanEntry) : List PlanEntry → List PlanEntry
  | [] => [e]
  | x :: xs => if e.weight ≤ x.weight then x :: insertByWeight e xs
               else e :: x :: xs

/-- Stable descending sort by weight, modelling Python's stable
`list.sort(key=lambda x: x['weight'], reverse=True)` (source line 294). -/
def sortByWeightDesc : List PlanEntry → List PlanEntry
  | [] => []
  | x :: xs => insertByWeight x (sortByWeightDesc xs)

/-- Embedding of `MPTSolver.format_portfolio_result` (source lines 268–302): one plan entry
per fund with weight strictly above 0.001, carrying the fund name, weight,
percentage and allocated amount; entries sorted descending by weight; the
portfolio metrics and risk score attached unmodified. -/
def format_portfolio_result (portfolio_data : MappedPortfolio)
    (investment_amount : ℚ) : FormattedResult :=
  let weights := portfolio_data.weights
  let portfolio_list := (List.finRange 10).filterMap
    (fun i =>
      if weights i > 0.001 then
        some { fund_name := FUNDS_NAMES i
               weight := weights i
               weight_percentage := weights i * 100
               investment_amount := weights i * investment_amount }
      else (none : Option PlanEntry))
  { plan_list := sortByWeightDesc portfolio_list
    expected_return := portfolio_data.expected_return
    expected_volatility := portfolio_data.volatility
    max_drawdown_estimate := portfolio_data.max_drawdown
    risk_score_used := portfolio_data.risk_score_used }

/-! ### Concrete fixtures used by witnesses and counterexamples -/

/-- A concrete frontier point: half money-market fund, half bond fund. -/
def pointA : FrontierPoint :=
  { target_return := 0.03, weights := ![0.5, 0.5, 0, 0, 0, 0, 0, 0, 0, 0],
    expected_return := 0.035, volatility := (1, 0.0005),
    max_drawdown := (2.5, 0.0005) }

/-- A concrete frontier point with an interior weight profile. -/
def pointB : FrontierPoint :=
  { target_return := 0.05, weights := ![0.2, 0.3, 0.5, 0, 0, 0, 0, 0, 0, 0],
    expected_return := 0.05, volatility := (1, 0.001),
    max_drawdown := (2.5, 0.001) }

/-- A concrete frontier point containing a sub-threshold weight `0.0005`. -/
def pointC : FrontierPoint :=
  { target_return := 0.07, weights := ![0, 0.0005, 0.9995, 0, 0, 0, 0, 0, 0, 0],
    expected_return := 0.07, volatility := (1, 0.002),
    max_drawdown := (2.5, 0.002) }

/-- A three-point example frontier. -/
def exampleFrontier : List FrontierPoint := [pointA, pointB, pointC]

/-- A ten-point example frontier whose last point is distinguishable. -/
def exampleFrontier10 : List FrontierPoint :=
  [pointA, pointA, pointA, pointA, pointA, pointA, pointA, pointA, pointA,
   pointC]

/-- A solver oracle that always reports non-convergence at the equal-weight
starting point. -/
def failingSolver : Solver := fun _ _ =>
  .ok { x := fun _ => 1 / 10, success := false,
        message := "Iteration limit reached" }

/-- A solver oracle that always succeeds, returning a fixed interior point. -/
def okSolver : Solver := fun _ _ =>
  .ok { x := ![0.2, 0.3, 0.5, 0, 0, 0, 0, 0, 0, 0], success := true,
        message := "Optimization terminated successfully" }

/-- A concrete mapped portfolio: 40% / 30% / 30% across the first three
funds. -/
def examplePD : MappedPortfolio :=
  { weights := ![0.4, 0.3, 0.3, 0, 0, 0, 0, 0, 0, 0]
    expected_return := 0.05, volatility := (1, 0.001)
    max_drawdown := (2.5, 0.001), risk_score_used := 5 }

/-- The `optimize_portfolio` result produced by `okSolver`. -/
def okResult : PortfolioResult :=
  { weights := ![0.2, 0.3, 0.5, 0, 0, 0, 0, 0, 0, 0]
    expected_return :=
      (calculate_portfolio_metrics ![0.2, 0.3, 0.5, 0, 0, 0, 0, 0, 0, 0]).expected_return
    volatility :=
      (calculate_portfolio_metrics ![0.2, 0.3, 0.5, 0, 0, 0, 0, 0, 0, 0]).volatility
    max_drawdown :=
      (calculate_portfolio_metrics ![0.2, 0.3, 0.5, 0, 0, 0, 0, 0, 0, 0]).max_drawdown
    success := true
    message := "Optimization terminated successfully" }

end MPT

namespace MPT

/-! ## Helper lemmas -/

theorem sum_univ_nine {M : Type} [AddCommMonoid M] (f : Fin 9 → M) :
    ∑ i, f i = f 0 + f 1 + f 2 + f 3 + f 4 + f 5 + f 6 + f 7 + f 8 := by
  rw [Fin.sum_univ_castSucc, Fin.sum_univ_eight]; rfl

theorem sum_univ_ten {M : Type} [AddCommMonoid M] (f : Fin 10 → M) :
    ∑ i, f i = f 0 + f 1 + f 2 + f 3 + f 4 + f 5 + f 6 + f 7 + f 8 + f 9 := by
  rw [Fin.sum_univ_castSucc, sum_univ_nine]; rfl

set_option maxHeartbeats 4000000 in
/-- The covariance quadratic form written out entrywise. -/
theorem portfolio_variance_expand (w : Weights) :
    portfolio_variance w =
      w 0 * (0.0008 * w 0 + 0.0003 * w 1 + 0.0001 * w 2 + 0.0000 * w 3 + 0.0001 * w 4 + 0.0001 * w 5 + 0.0001 * w 6 + 0.0000 * w 7 + 0.0006 * w 8 + 0.0000 * w 9) +
      w 1 * (0.0003 * w 0 + 0.0015 * w 1 + 0.0005 * w 2 + 0.0001 * w 3 + 0.0003 * w 4 + 0.0002 * w 5 + 0.0002 * w 6 + 0.0001 * w 7 + 0.0008 * w 8 + 0.0001 * w 9) +
      w 2 * (0.0001 * w 0 + 0.0005 * w 1 + 0.0040 * w 2 + 0.0025 * w 3 + 0.0030 * w 4 + 0.0020 * w 5 + 0.0018 * w 6 + 0.0022 * w 7 + 0.0003 * w 8 + 0.0028 * w 9) +
      w 3 * (0.0000 * w 0 + 0.0001 * w 1 + 0.0025 * w 2 + 0.0225 * w 3 + 0.0150 * w 4 + 0.0100 * w 5 + 0.0080 * w 6 + 0.0120 * w 7 + 0.0001 * w 8 + 0.0180 * w 9) +
      w 4 * (0.0001 * w 0 + 0.0003 * w 1 + 0.0030 * w 2 + 0.0150 * w 3 + 0.0144 * w 4 + 0.0085 * w 5 + 0.0075 * w 6 + 0.0095 * w 7 + 0.0002 * w 8 + 0.0120 * w 9) +
      w 5 * (0.0001 * w 0 + 0.0002 * w 1 + 0.0020 * w 2 + 0.0100 * w 3 + 0.0085 * w 4 + 0.0090 * w 5 + 0.0065 * w 6 + 0.0078 * w 7 + 0.0001 * w 8 + 0.0085 * w 9) +
      w 6 * (0.0001 * w 0 + 0.0002 * w 1 + 0.0018 * w 2 + 0.0080 * w 3 + 0.0075 * w 4 + 0.0065 * w 5 + 0.0064 * w 6 + 0.0055 * w 7 + 0.0002 * w 8 + 0.0070 * w 9) +
      w 7 * (0.0000 * w 0 + 0.0001 * w 1 + 0.0022 * w 2 + 0.0120 * w 3 + 0.0095 * w 4 + 0.0078 * w 5 + 0.0055 * w 6 + 0.0169 * w 7 + 0.0001 * w 8 + 0.0105 * w 9) +
      w 8 * (0.0006 * w 0 + 0.0008 * w 1 + 0.0003 * w 2 + 0.0001 * w 3 + 0.0002 * w 4 + 0.0001 * w 5 + 0.0002 * w 6 + 0.0001 * w 7 + 0.0012 * w 8 + 0.0001 * w 9) +
      w 9 * (0.0000 * w 0 + 0.0001 * w 1 + 0.0028 * w 2 + 0.0180 * w 3 + 0.0120 * w 4 + 0.0085 * w 5 + 0.0070 * w 6 + 0.0105 * w 7 + 0.0001 * w 8 + 0.0256 * w 9)
    := by
  simp only [portfolio_variance, sum_univ_ten]; rfl

set_option maxHeartbeats 2000000 in
/-- Exact LDLᵀ sum-of-squares certificate for the covariance quadratic form,
scaled by `10^4` to clear the decimal entries: the source's covariance matrix
is positive definite, so the portfolio variance is a sum of squares. -/
theorem portfolio_variance_sos (w : Weights) :
    (10000 : ℚ) * portfolio_variance w =
      (8) * (w 0 + ((3)/8) * w 1 + ((1)/8) * w 2 + ((1)/8) * w 4 + ((1)/8) * w 5 + ((1)/8) * w 6 + ((3)/4) * w 8)^2 +
      ((111)/8) * (w 1 + ((1)/3) * w 2 + ((8)/111) * w 3 + ((7)/37) * w 4 + ((13)/111) * w 5 + ((13)/111) * w 6 + ((8)/111) * w 7 + ((46)/111) * w 8 + ((8)/111) * w 9)^2 +
      ((115)/3) * (w 2 + ((74)/115) * w 3 + ((87)/115) * w 4 + ((58)/115) * w 5 + ((52)/115) * w 6 + ((13)/23) * w 7 + ((1)/115) * w 8 + ((83)/115) * w 9)^2 +
      ((889531)/4255) * (w 3 + ((558043)/889531) * w 4 + ((372067)/889531) * w 5 + ((292443)/889531) * w 6 + ((450970)/889531) * w 7 + ((1579)/889531) * w 8 + ((689842)/889531) * w 9)^2 +
      ((34836669)/889531) * (w 4 + ((1490950)/3870741) * w 5 + ((5437274)/11612223) * w 6 + ((10611893)/34836669) * w 7 + ((-4558)/552963) * w 8 + ((-838526)/11612223) * w 9)^2 +
      ((48447080)/1290247) * (w 5 + ((25974869)/48447080) * w 6 + ((69786061)/145341240) * w 7 + ((-200767)/12111770) * w 8 + ((2713387)/24223540) * w 9)^2 +
      ((2016113971)/145341240) * (w 6 + ((-2184694901)/6048341913) * w 7 + ((114632388)/2016113971) * w 8 + ((456588626)/2016113971) * w 9)^2 +
      ((537387691927)/6048341913) * (w 7 + ((5389809157)/537387691927) * w 8 + ((42783336325)/537387691927) * w 9)^2 +
      ((8136263591891)/1612163075781) * (w 8 + ((-235274360959)/8136263591891) * w 9)^2 +
      ((880959899344239)/8136263591891) * (w 9)^2 := by
  rw [portfolio_variance_expand]; ring

/-- The portfolio variance is nonnegative for *every* weight vector, by the
sum-of-squares certificate: `np.sqrt` never receives a negative radicand. -/
theorem portfolio_variance_nonneg (w : Weights) : 0 ≤ portfolio_variance w := by
  have h := portfolio_variance_sos w
  have h2 : 0 ≤ (10000 : ℚ) * portfolio_variance w := by rw [h]; positivity
  linarith

end MPT

namespace MPT

/-! ## Claim theorems: metrics calculator -/

/-- Claim C2: For every weight vector `w`, `calculate_portfolio_metrics` takes
the volatility as the square root of the quadratic form `wᵀΣw`, and its
behaviour coincides with the spec's clamp-negative-variance-to-zero
semantics: the quadratic form is provably never negative (the covariance
matrix is positive definite), so the clamped and unclamped computations
agree and `np.sqrt` never receives a negative radicand (no error, no NaN). -/
theorem metrics_match_clamped_spec (w : Weights) :
    0 ≤ portfolio_variance w ∧
    (calculate_portfolio_metrics w).volatility = np_sqrt (portfolio_variance w) ∧
    calculate_portfolio_metrics w = calculate_portfolio_metrics_clamped w := by
  refine ⟨portfolio_variance_nonneg w, rfl, ?_⟩
  simp only [calculate_portfolio_metrics, calculate_portfolio_metrics_clamped,
    max_eq_right (portfolio_variance_nonneg w)]

/-- Claim C7: for every weight vector `w` — with no precondition that it sums
to 1 — `calculate_portfolio_metrics` returns exactly the triple
`(w ⬝ EXPECTED_RETURNS, sqrt (w ⬝ (Σ *ᵥ w)), volatility * 2.5)` (stated via
Mathlib's `dotProduct`/`mulVec`), and the real value of the max-drawdown
estimate is exactly 2.5 times the real value of the volatility.  The
embedding is a pure function, matching the source's absence of side
effects. -/
theorem calculate_portfolio_metrics_formula (w : Weights) :
    calculate_portfolio_metrics w =
      { expected_return := Matrix.dotProduct w EXPECTED_RETURNS
        volatility := np_sqrt (Matrix.dotProduct w (Matrix.mulVec COVARIANCE_MATRIX w))
        max_drawdown :=
          (np_sqrt (Matrix.dotProduct w (Matrix.mulVec COVARIANCE_MATRIX w))).scale 2.5 } ∧
    ((calculate_portfolio_metrics w).max_drawdown.1 : ℝ) *
        Real.sqrt ((calculate_portfolio_metrics w).max_drawdown.2 : ℝ) =
      2.5 * (((calculate_portfolio_metrics w).volatility.1 : ℝ) *
        Real.sqrt (((calculate_portfolio_metrics w).volatility.2 : ℝ))) := by
  constructor
  · rfl
  · simp only [calculate_portfolio_metrics, np_sqrt, RootQ.scale]
    push_cast
    ring

end MPT

namespace MPT

/-! ## Risk mapper: index selection and post-processing -/

/-- For a score at least 1 and a non-empty frontier, Python's `int()`
truncation coincides with the floor. -/
theorem selectIndex_eq_floor (s : ℚ) (L : ℕ) (h1 : 1 ≤ s) (hL : 1 ≤ L) :
    selectIndex s L = ⌊(s - 1) / 9 * ((L : ℚ) - 1)⌋ := by
  have hLq : (1 : ℚ) ≤ (L : ℚ) := by exact_mod_cast hL
  have hx : 0 ≤ (s - 1) / 9 * ((L : ℚ) - 1) :=
    mul_nonneg (div_nonneg (by linarith) (by norm_num)) (by linarith)
  simp only [selectIndex, pyInt]
  rw [if_pos hx]

/-- The selected index is never negative for scores at least 1. -/
theorem selectIndex_nonneg (s : ℚ) (L : ℕ) (h1 : 1 ≤ s) (hL : 1 ≤ L) :
    0 ≤ selectIndex s L := by
  have hLq : (1 : ℚ) ≤ (L : ℚ) := by exact_mod_cast hL
  rw [selectIndex_eq_floor s L h1 hL]
  exact Int.floor_nonneg.mpr
    (mul_nonneg (div_nonneg (by linarith) (by norm_num)) (by linarith))

/-- The selected index stays below the frontier length for scores in
`[1, 10]`. -/
theorem selectIndex_lt (s : ℚ) (L : ℕ) (h1 : 1 ≤ s) (h10 : s ≤ 10) (hL : 1 ≤ L) :
    selectIndex s L < (L : ℤ) := by
  have hLq : (1 : ℚ) ≤ (L : ℚ) := by exact_mod_cast hL
  rw [selectIndex_eq_floor s L h1 hL]
  have hle : (s - 1) / 9 * ((L : ℚ) - 1) ≤ (L : ℚ) - 1 := by
    have hx1 : (s - 1) / 9 ≤ 1 := by
      rw [div_le_one (by norm_num : (0:ℚ) < 9)]; linarith
    exact mul_le_of_le_one_left (by linarith) hx1
  have : (⌊(s - 1) / 9 * ((L : ℚ) - 1)⌋ : ℤ) ≤ (L : ℤ) - 1 := by
    have h2 : ((L : ℚ) - 1) = (((L : ℤ) - 1 : ℤ) : ℚ) := by push_cast; ring
    calc ⌊(s - 1) / 9 * ((L : ℚ) - 1)⌋ ≤ ⌊(L : ℚ) - 1⌋ := Int.floor_le_floor hle
    _ = (L : ℤ) - 1 := by rw [h2, Int.floor_intCast]
  omega

/-- Risk score 1 selects index 0. -/
theorem selectIndex_one (L : ℕ) : selectIndex 1 L = 0 := by
  simp [selectIndex, pyInt]

/-- Risk score 10 selects the last index. -/
theorem selectIndex_ten (L : ℕ) (hL : 1 ≤ L) : selectIndex 10 L = (L : ℤ) - 1 := by
  have h := selectIndex_eq_floor 10 L (by norm_num) hL
  rw [h]
  have h2 : (10 - 1 : ℚ) / 9 * ((L : ℚ) - 1) = (((L : ℤ) - 1 : ℤ) : ℚ) := by
    push_cast; ring
  rw [h2, Int.floor_intCast]

/-- The selected index is monotone in the risk score on `[1, 10]`. -/
theorem selectIndex_mono (L : ℕ) (hL : 1 ≤ L) (a b : ℚ)
    (ha : 1 ≤ a) (hab : a ≤ b) (_hb : b ≤ 10) :
    selectIndex a L ≤ selectIndex b L := by
  have hLq : (1 : ℚ) ≤ (L : ℚ) := by exact_mod_cast hL
  rw [selectIndex_eq_floor a L ha hL, selectIndex_eq_floor b L (by linarith) hL]
  apply Int.floor_le_floor
  apply mul_le_mul_of_nonneg_right _ (by linarith)
  apply div_le_div_of_nonneg_right _ (by norm_num)
  linarith

/-- Python indexing agrees with `List.get?` for an in-range nonnegative
index. -/
theorem pyGet_of_bounds {α : Type} (l : List α) (i : ℤ)
    (h0 : 0 ≤ i) (hl : i < (l.length : ℤ)) : pyGet l i = l.get? i.toNat := by
  simp [pyGet, pyIdx, h0, hl]

/-- Claim C1: For every non-empty frontier and risk score `s ∈ [1,10]`,
`map_risk_to_portfolio` selects the frontier point at index
`⌊(s−1)/9 · (len−1)⌋`: the `int()` truncation equals the floor, score 1
gives index 0, score 10 gives the last index, the index is monotone in the
score, and the result returned by `map_risk_to_portfolio` carries exactly
the metrics of the point stored at that index. -/
theorem mapRisk_selects_floor_index (s : ℚ) (F : List FrontierPoint)
    (hF : F ≠ []) (h1 : 1 ≤ s) (h10 : s ≤ 10) :
    selectIndex s F.length = ⌊(s - 1) / 9 * ((F.length : ℚ) - 1)⌋ ∧
    selectIndex 1 F.length = 0 ∧
    selectIndex 10 F.length = (F.length : ℤ) - 1 ∧
    (∀ a b : ℚ, 1 ≤ a → a ≤ b → b ≤ 10 →
        selectIndex a F.length ≤ selectIndex b F.length) ∧
    ∃ p : FrontierPoint,
      F.get? (selectIndex s F.length).toNat = some p ∧
      (map_risk_to_portfolio s F).map
          (fun r => (r.1.expected_return, r.1.volatility, r.1.max_drawdown,
            r.1.risk_score_used)) =
        some (p.expected_return, p.volatility, p.max_drawdown, s) := by
  have hL : 1 ≤ F.length := List.length_pos.mpr hF
  refine ⟨selectIndex_eq_floor s F.length h1 hL, selectIndex_one F.length,
    selectIndex_ten F.length hL,
    fun a b ha hab hb => selectIndex_mono F.length hL a b ha hab hb, ?_⟩
  have h0 := selectIndex_nonneg s F.length h1 hL
  have hlt := selectIndex_lt s F.length h1 h10 hL
  have hget := pyGet_of_bounds F (selectIndex s F.length) h0 hlt
  have htn : (selectIndex s F.length).toNat < F.length := by omega
  have hp : F.get? (selectIndex s F.length).toNat =
      some (F.get ⟨(selectIndex s F.length).toNat, htn⟩) := List.get?_eq_get htn
  have hne : F.isEmpty = false := by
    cases F with
    | nil => exact absurd rfl hF
    | cons a l => rfl
  refine ⟨F.get ⟨(selectIndex s F.length).toNat, htn⟩, hp, ?_⟩
  simp [map_risk_to_portfolio, hne, hget.trans hp]

/-- Witness for C1: The theorem instantiated at risk score 4 on the
three-point example frontier. -/
theorem mapRisk_selects_floor_index_witness :
    exampleFrontier ≠ [] ∧
    (selectIndex 4 exampleFrontier.length =
        ⌊((4 : ℚ) - 1) / 9 * ((exampleFrontier.length : ℚ) - 1)⌋ ∧
      selectIndex 1 exampleFrontier.length = 0 ∧
      selectIndex 10 exampleFrontier.length = (exampleFrontier.length : ℤ) - 1 ∧
      (∀ a b : ℚ, 1 ≤ a → a ≤ b → b ≤ 10 →
          selectIndex a exampleFrontier.length ≤
            selectIndex b exampleFrontier.length) ∧
      ∃ p : FrontierPoint,
        exampleFrontier.get? (selectIndex 4 exampleFrontier.length).toNat =
          some p ∧
        (map_risk_to_portfolio 4 exampleFrontier).map
            (fun r => (r.1.expected_return, r.1.volatility, r.1.max_drawdown,
              r.1.risk_score_used)) =
          some (p.expected_return, p.volatility, p.max_drawdown, 4)) :=
  ⟨by simp [exampleFrontier],
   mapRisk_selects_floor_index 4 exampleFrontier (by simp [exampleFrontier])
     (by norm_num) (by norm_num)⟩

/-- Claim C3: For every frontier and risk score in `[1,10]` selecting a point
`p`, `map_risk_to_portfolio` post-processes `p`'s weights by zeroing every
weight below 0.001 and then dividing by the new sum, unconditionally; when at
least one weight is at least 0.001 the returned weights sum to exactly 1. -/
theorem mapRisk_renormalizes (s : ℚ) (F : List FrontierPoint) (p : FrontierPoint)
    (h1 : 1 ≤ s) (h10 : s ≤ 10)
    (hp : F.get? (selectIndex s F.length).toNat = some p)
    (hw : ∃ i, (0.001 : ℚ) ≤ p.weights i) :
    (∃ F',
      map_risk_to_portfolio s F =
        some ({ weights := fun i =>
                  zero_small p.weights i / ∑ j, zero_small p.weights j
                expected_return := p.expected_return
                volatility := p.volatility
                max_drawdown := p.max_drawdown
                risk_score_used := s }, F')) ∧
    (∑ i, zero_small p.weights i / ∑ j, zero_small p.weights j) = 1 := by
  have hF : F ≠ [] := by
    intro h; subst h; simp at hp
  have hL : 1 ≤ F.length := List.length_pos.mpr hF
  have h0 := selectIndex_nonneg s F.length h1 hL
  have hlt := selectIndex_lt s F.length h1 h10 hL
  have hget := (pyGet_of_bounds F (selectIndex s F.length) h0 hlt).trans hp
  have hne : F.isEmpty = false := by
    cases F with
    | nil => exact absurd rfl hF
    | cons a l => rfl
  have hsum : (0.001 : ℚ) ≤ ∑ j, zero_small p.weights j := by
    obtain ⟨i0, hi0⟩ := hw
    have hz : zero_small p.weights i0 = p.weights i0 := by
      simp only [zero_small, if_neg (not_lt.mpr hi0)]
    calc (0.001 : ℚ) ≤ zero_small p.weights i0 := by rw [hz]; exact hi0
      _ ≤ ∑ j, zero_small p.weights j := by
          apply Finset.single_le_sum (fun j _ => ?_) (Finset.mem_univ i0)
          simp only [zero_small]
          split
          · exact le_refl 0
          · rename_i hj
            have := not_lt.mp hj
            linarith
  have hS : (∑ j, zero_small p.weights j) ≠ 0 := by
    intro h; rw [h] at hsum; norm_num at hsum
  constructor
  · refine ⟨pySet F (selectIndex s F.length)
      { p with weights := zero_small p.weights }, ?_⟩
    simp [map_risk_to_portfolio, hne, hget]
  · rw [← Finset.sum_div, div_self hS]

/-- Witness for C3: The theorem instantiated at risk score 1 on the
three-point example frontier, which selects `pointA`. -/
theorem mapRisk_renormalizes_witness :
    (exampleFrontier.get? (selectIndex 1 exampleFrontier.length).toNat =
        some pointA) ∧
    (∃ i, (0.001 : ℚ) ≤ pointA.weights i) ∧
    ((∃ F',
        map_risk_to_portfolio 1 exampleFrontier =
          some ({ weights := fun i =>
                    zero_small pointA.weights i / ∑ j, zero_small pointA.weights j
                  expected_return := pointA.expected_return
                  volatility := pointA.volatility
                  max_drawdown := pointA.max_drawdown
                  risk_score_used := 1 }, F')) ∧
      (∑ i, zero_small pointA.weights i / ∑ j, zero_small pointA.weights j) = 1) := by
  have hp : exampleFrontier.get? (selectIndex 1 exampleFrontier.length).toNat =
      some pointA := by
    simp [selectIndex_one, exampleFrontier]
  have hw : ∃ i, (0.001 : ℚ) ≤ pointA.weights i :=
    ⟨0, by norm_num [pointA]⟩
  exact ⟨hp, hw,
    mapRisk_renormalizes 1 exampleFrontier pointA (by norm_num) (by norm_num) hp hw⟩

end MPT

namespace MPT

/-! ## Empty-frontier fallback and optimizer failure semantics -/

/-- Claim C5: For every risk score, `map_risk_to_portfolio` on an empty
frontier returns — without any error — the equal-weight portfolio `1/N`
(`1/10` here), with all three metrics computed by
`calculate_portfolio_metrics` on those equal weights and the input risk
score attached; the equal-weight expected return evaluates to `0.099`. -/
theorem mapRisk_empty_frontier (s : ℚ) :
    map_risk_to_portfolio s [] =
      some ({ weights := fun _ => 1 / (num_funds : ℚ)
              expected_return :=
                (calculate_portfolio_metrics
                  (fun _ => 1 / (num_funds : ℚ))).expected_return
              volatility :=
                (calculate_portfolio_metrics
                  (fun _ => 1 / (num_funds : ℚ))).volatility
              max_drawdown :=
                (calculate_portfolio_metrics
                  (fun _ => 1 / (num_funds : ℚ))).max_drawdown
              risk_score_used := s }, []) ∧
    ((fun _ => 1 / (num_funds : ℚ)) : Weights) = (fun _ => 1 / 10) ∧
    (calculate_portfolio_metrics
      (fun _ => 1 / (num_funds : ℚ))).expected_return = 0.099 := by
  refine ⟨rfl, funext fun i => by norm_num [num_funds], ?_⟩
  show expected_return_of (fun _ => 1 / (num_funds : ℚ)) = 0.099
  simp [expected_return_of, Fin.sum_univ_succ, EXPECTED_RETURNS, num_funds]
  norm_num

/-- Claim C6: Whenever the solver reports non-convergence (`success=false`),
`optimize_portfolio` still returns normally: the result carries the solver's
best-found (possibly constraint-violating) weights together with their
metrics, `success = false` and the solver's diagnostic message.  No exception
is raised and the solver is invoked exactly once — the result is a pure
function of that single oracle reply. -/
theorem optimize_portfolio_failure (solver : Solver)
    (target_risk target_return : Option ℚ) (r : SolverResult)
    (hs : solver target_risk target_return = .ok r)
    (hf : r.success = false) :
    optimize_portfolio solver target_risk target_return =
      .ok { weights := r.x
            expected_return := (calculate_portfolio_metrics r.x).expected_return
            volatility := (calculate_portfolio_metrics r.x).volatility
            max_drawdown := (calculate_portfolio_metrics r.x).max_drawdown
            success := false
            message := r.message } := by
  simp [optimize_portfolio, hs, hf]

/-- Witness for C6: The theorem instantiated on a solver that always reports
non-convergence at the equal-weight point. -/
theorem optimize_portfolio_failure_witness :
    failingSolver none none =
      .ok { x := fun _ => 1 / 10, success := false,
            message := "Iteration limit reached" } ∧
    optimize_portfolio failingSolver none none =
      .ok { weights := fun _ => 1 / 10
            expected_return :=
              (calculate_portfolio_metrics (fun _ => 1 / 10)).expected_return
            volatility := (calculate_portfolio_metrics (fun _ => 1 / 10)).volatility
            max_drawdown := (calculate_portfolio_metrics (fun _ => 1 / 10)).max_drawdown
            success := false
            message := "Iteration limit reached" } :=
  ⟨rfl, optimize_portfolio_failure failingSolver none none
    { x := fun _ => 1 / 10, success := false, message := "Iteration limit reached" }
    rfl rfl⟩

/-! ## Efficient frontier builder -/

/-- Lemma: `List.filterMap` preserves pairwise relations that transport along the
partial map. -/
theorem pairwise_filterMap {α β : Type} {R : α → α → Prop} {S : β → β → Prop}
    (f : α → Option β)
    (h : ∀ a b x y, R a b → f a = some x → f b = some y → S x y) :
    ∀ l : List α, l.Pairwise R → (l.filterMap f).Pairwise S := by
  intro l
  induction l with
  | nil => intro _; simp
  | cons a l' ih =>
      intro hl
      rcases List.pairwise_cons.mp hl with ⟨hr, hl'⟩
      rw [List.filterMap_cons]
      cases hfa : f a with
      | none => exact ih hl'
      | some x =>
          refine List.Pairwise.cons ?_ (ih hl')
          intro y hy
          obtain ⟨b, hb, hfb⟩ := List.mem_filterMap.mp hy
          exact h a b x y (hr b hb) hfa hfb

/-- A `linspace` grid with `start ≤ stop` is sorted nondecreasing. -/
theorem linspace_pairwise (a b : ℚ) (n : ℕ) (hab : a ≤ b) :
    (linspace a b n).Pairwise (· ≤ ·) := by
  unfold linspace
  rw [List.pairwise_map]
  rcases n with _ | m
  · simp
  · have hD : (0 : ℚ) ≤ ((m + 1 : ℕ) : ℚ) - 1 := by push_cast; linarith
    apply List.Pairwise.imp ?_ (List.pairwise_lt_range (m + 1))
    intro i j hij
    rcases eq_or_lt_of_le hD with hD0 | hDpos
    · rw [← hD0]
      simp
    · have hc : (i : ℚ) ≤ (j : ℚ) := by exact_mod_cast le_of_lt hij
      gcongr
      linarith

/-- A kept frontier point records exactly the grid value that produced it. -/
theorem frontier_step_target (solver : Solver) (t : ℚ) (q : FrontierPoint)
    (h : frontier_step solver t = some q) : q.target_return = t := by
  unfold frontier_step at h
  cases ho : optimize_portfolio solver none (some t) with
  | error e => rw [ho] at h; simp at h
  | ok r =>
      rw [ho] at h
      by_cases hs : r.success
      · simp [hs] at h
        rw [← h]
      · simp [hs] at h

/-- Claim C4: `calculate_efficient_frontier` builds the grid of
`num_portfolios` evenly spaced target returns from the minimum-variance
portfolio's expected return up to `0.9` times the maximum single-asset
expected return (`0.185`), calls the optimizer once per grid value, keeps a
point exactly when the call raises no exception and reports success (the
kept point storing that grid value as its target return), and returns the
kept points in grid order, which is ascending in `target_return` whenever
the grid start does not exceed its stop. -/
theorem frontier_grid_and_order (solver : Solver) (n : ℕ) (mvr : PortfolioResult)
    (hmvr : optimize_portfolio solver none none = .ok mvr) :
    EXPECTED_RETURNS (np_argmax EXPECTED_RETURNS) = 0.185 ∧
    calculate_efficient_frontier solver n =
      .ok ((linspace mvr.expected_return (0.185 * 0.9) n).filterMap
        (frontier_step solver)) ∧
    (∀ t e, optimize_portfolio solver none (some t) = .error e →
        frontier_step solver t = none) ∧
    (∀ t r, optimize_portfolio solver none (some t) = .ok r → r.success = false →
        frontier_step solver t = none) ∧
    (∀ t r, optimize_portfolio solver none (some t) = .ok r → r.success = true →
        frontier_step solver t =
          some { target_return := t, weights := r.weights
                 expected_return := r.expected_return
                 volatility := r.volatility, max_drawdown := r.max_drawdown }) ∧
    (mvr.expected_return ≤ 0.185 * 0.9 →
      ((linspace mvr.expected_return (0.185 * 0.9) n).filterMap
          (frontier_step solver)).Pairwise
        (fun p q => p.target_return ≤ q.target_return)) := by
  have hmax : EXPECTED_RETURNS (np_argmax EXPECTED_RETURNS) = 0.185 := by
    norm_num [np_argmax, List.finRange, EXPECTED_RETURNS]
  refine ⟨hmax, ?_, ?_, ?_, ?_, ?_⟩
  · simp only [calculate_efficient_frontier, hmvr, hmax]
  · intro t e he
    simp [frontier_step, he]
  · intro t r hr hf
    simp [frontier_step, hr, hf]
  · intro t r hr hs
    simp [frontier_step, hr, hs]
  · intro hle
    refine pairwise_filterMap (frontier_step solver) ?_ _
      (linspace_pairwise _ _ n hle)
    intro t1 t2 q1 q2 h12 hq1 hq2
    rw [frontier_step_target solver t1 q1 hq1, frontier_step_target solver t2 q2 hq2]
    exact h12

/-- Witness for C4: The theorem instantiated on the always-succeeding solver
with a five-point grid. -/
theorem frontier_grid_and_order_witness :
    optimize_portfolio okSolver none none = .ok okResult ∧
    (EXPECTED_RETURNS (np_argmax EXPECTED_RETURNS) = 0.185 ∧
      calculate_efficient_frontier okSolver 5 =
        .ok ((linspace okResult.expected_return (0.185 * 0.9) 5).filterMap
          (frontier_step okSolver)) ∧
      (∀ t e, optimize_portfolio okSolver none (some t) = .error e →
          frontier_step okSolver t = none) ∧
      (∀ t r, optimize_portfolio okSolver none (some t) = .ok r → r.success = false →
          frontier_step okSolver t = none) ∧
      (∀ t r, optimize_portfolio okSolver none (some t) = .ok r → r.success = true →
          frontier_step okSolver t =
            some { target_return := t, weights := r.weights
                   expected_return := r.expected_return
                   volatility := r.volatility, max_drawdown := r.max_drawdown }) ∧
      (okResult.expected_return ≤ 0.185 * 0.9 →
        ((linspace okResult.expected_return (0.185 * 0.9) 5).filterMap
            (frontier_step okSolver)).Pairwise
          (fun p q => p.target_return ≤ q.target_return))) :=
  ⟨rfl, frontier_grid_and_order okSolver 5 okResult rfl⟩

end MPT

namespace MPT

/-! ## Allocation formatter -/

/-- Inserting into a weight-descending list permutes consing. -/
theorem insertByWeight_perm (e : PlanEntry) (l : List PlanEntry) :
    (insertByWeight e l).Perm (e :: l) := by
  induction l with
  | nil => exact List.Perm.refl _
  | cons x xs ih =>
      unfold insertByWeight
      by_cases h : e.weight ≤ x.weight
      · rw [if_pos h]
        exact (ih.cons x).trans (List.Perm.swap e x xs)
      · rw [if_neg h]

/-- The descending sort permutes its input. -/
theorem sortByWeightDesc_perm (l : List PlanEntry) :
    (sortByWeightDesc l).Perm l := by
  induction l with
  | nil => exact List.Perm.refl _
  | cons x xs ih =>
      unfold sortByWeightDesc
      exact (insertByWeight_perm x (sortByWeightDesc xs)).trans (ih.cons x)

/-- Insertion preserves the weight-descending order. -/
theorem insertByWeight_sorted (e : PlanEntry) (l : List PlanEntry)
    (hl : l.Pairwise (fun a b => b.weight ≤ a.weight)) :
    (insertByWeight e l).Pairwise (fun a b => b.weight ≤ a.weight) := by
  induction l with
  | nil => simp [insertByWeight]
  | cons x xs ih =>
      rcases List.pairwise_cons.mp hl with ⟨hx, hxs⟩
      unfold insertByWeight
      by_cases h : e.weight ≤ x.weight
      · rw [if_pos h]
        refine List.pairwise_cons.mpr ⟨?_, ih hxs⟩
        intro y hy
        rcases List.mem_cons.mp ((insertByWeight_perm e xs).mem_iff.mp hy) with
          rfl | hyxs
        · exact h
        · exact hx y hyxs
      · rw [if_neg h]
        refine List.pairwise_cons.mpr ⟨?_, hl⟩
        intro y hy
        rcases List.mem_cons.mp hy with rfl | hyxs
        · exact le_of_lt (not_le.mp h)
        · exact le_trans (hx y hyxs) (le_of_lt (not_le.mp h))

/-- The descending sort output is weight-descending. -/
theorem sortByWeightDesc_sorted (l : List PlanEntry) :
    (sortByWeightDesc l).Pairwise (fun a b => b.weight ≤ a.weight) := by
  induction l with
  | nil => simp [sortByWeightDesc]
  | cons x xs ih =>
      unfold sortByWeightDesc
      exact insertByWeight_sorted x (sortByWeightDesc xs) ih

/-- Claim C8: For every portfolio and positive cash amount,
`format_portfolio_result` emits exactly one plan entry per fund with weight
strictly above 0.001 — carrying the fund's name, weight, percentage, and an
allocated amount equal to `weight × cash` — omitting every other fund; the
entries are a permutation of that filtered list sorted descending by weight,
and the expected return, volatility, max drawdown and risk score from the
input are attached unmodified. -/
theorem format_portfolio_result_spec (pd : MappedPortfolio) (amount : ℚ)
    (_hpos : 0 < amount) :
    (format_portfolio_result pd amount).plan_list.Perm
      ((List.finRange 10).filterMap (fun i =>
        if pd.weights i > 0.001 then
          some { fund_name := FUNDS_NAMES i
                 weight := pd.weights i
                 weight_percentage := pd.weights i * 100
                 investment_amount := pd.weights i * amount }
        else (none : Option PlanEntry))) ∧
    (∀ e : PlanEntry, e ∈ (format_portfolio_result pd amount).plan_list ↔
      ∃ i : Fin 10, pd.weights i > 0.001 ∧
        e = { fund_name := FUNDS_NAMES i
              weight := pd.weights i
              weight_percentage := pd.weights i * 100
              investment_amount := pd.weights i * amount }) ∧
    (format_portfolio_result pd amount).plan_list.Pairwise
      (fun a b => b.weight ≤ a.weight) ∧
    (format_portfolio_result pd amount).expected_return = pd.expected_return ∧
    (format_portfolio_result pd amount).expected_volatility = pd.volatility ∧
    (format_portfolio_result pd amount).max_drawdown_estimate = pd.max_drawdown ∧
    (format_portfolio_result pd amount).risk_score_used = pd.risk_score_used := by
  refine ⟨sortByWeightDesc_perm _, ?_, sortByWeightDesc_sorted _, rfl, rfl, rfl, rfl⟩
  intro e
  simp only [format_portfolio_result]
  rw [(sortByWeightDesc_perm _).mem_iff]
  rw [List.mem_filterMap]
  constructor
  · rintro ⟨i, _, hi⟩
    by_cases h : pd.weights i > 0.001
    · rw [if_pos h] at hi
      exact ⟨i, h, (Option.some_inj.mp hi).symm⟩
    · rw [if_neg h] at hi
      exact absurd hi (Option.noConfusion)
  · rintro ⟨i, h, rfl⟩
    exact ⟨i, List.mem_finRange i, by rw [if_pos h]⟩

/-- Witness for C8: The theorem instantiated at the 40/30/30 portfolio with
a cash amount of 100000. -/
theorem format_portfolio_result_spec_witness :
    (0 : ℚ) < 100000 ∧
    ((format_portfolio_result examplePD 100000).plan_list.Perm
      ((List.finRange 10).filterMap (fun i =>
        if examplePD.weights i > 0.001 then
          some { fund_name := FUNDS_NAMES i
                 weight := examplePD.weights i
                 weight_percentage := examplePD.weights i * 100
                 investment_amount := examplePD.weights i * 100000 }
        else (none : Option PlanEntry))) ∧
    (∀ e : PlanEntry, e ∈ (format_portfolio_result examplePD 100000).plan_list ↔
      ∃ i : Fin 10, examplePD.weights i > 0.001 ∧
        e = { fund_name := FUNDS_NAMES i
              weight := examplePD.weights i
              weight_percentage := examplePD.weights i * 100
              investment_amount := examplePD.weights i * 100000 }) ∧
    (format_portfolio_result examplePD 100000).plan_list.Pairwise
      (fun a b => b.weight ≤ a.weight) ∧
    (format_portfolio_result examplePD 100000).expected_return =
      examplePD.expected_return ∧
    (format_portfolio_result examplePD 100000).expected_volatility =
      examplePD.volatility ∧
    (format_portfolio_result examplePD 100000).max_drawdown_estimate =
      examplePD.max_drawdown ∧
    (format_portfolio_result examplePD 100000).risk_score_used =
      examplePD.risk_score_used) :=
  ⟨by norm_num, format_portfolio_result_spec examplePD 100000 (by norm_num)⟩

end MPT

namespace MPT

/-! ## Input validation (C9) and frontier mutation (C10) -/

/-- Python `l[i] = x` agrees with `List.set` for an in-range nonnegative
index. -/
theorem pySet_of_bounds {α : Type} (l : List α) (i : ℤ) (x : α)
    (h0 : 0 ≤ i) (hl : i < (l.length : ℤ)) : pySet l i x = l.set i.toNat x := by
  simp [pySet, pyIdx, h0, hl]

/-- Counterexample for C9: Risk score 0 lies outside `[1,10]`, yet
`map_risk_to_portfolio` raises no validation error: on a ten-point frontier
it computes the truncated index `-1`, which Python list indexing wraps
around, silently returning the *last* (highest-risk) frontier point. -/
theorem mapRisk_validation_counterexample :
    ¬ ((1 : ℚ) ≤ 0) ∧
    selectIndex 0 exampleFrontier10.length = -1 ∧
    (map_risk_to_portfolio 0 exampleFrontier10).isSome = true ∧
    (map_risk_to_portfolio 0 exampleFrontier10).map
      (fun r => r.1.expected_return) = some pointC.expected_return := by
  refine ⟨by norm_num, ?_, ?_, ?_⟩
  · norm_num [selectIndex, pyInt, exampleFrontier10]
  · norm_num [map_risk_to_portfolio, exampleFrontier10, selectIndex, pyInt,
      pyGet, pyIdx]
  · norm_num [map_risk_to_portfolio, exampleFrontier10, selectIndex, pyInt,
      pyGet, pyIdx]

/-- Amended claim C9: This core performs no input validation.  A risk score
below 1 produces a negative index that wraps to the end of the frontier
(score 0 selects the last point, without error); a risk score above 10
produces an index past the end and the failure is the `IndexError` of the
list access itself (`none`), not a descriptive validation error raised
beforehand; a non-positive cash amount is accepted by
`format_portfolio_result`, which returns normally. -/
theorem mapRisk_no_validation :
    (map_risk_to_portfolio 0 exampleFrontier10).map
      (fun r => r.1.expected_return) = some pointC.expected_return ∧
    map_risk_to_portfolio 11 exampleFrontier10 = none ∧
    (format_portfolio_result examplePD (-100)).risk_score_used = 5 ∧
    (format_portfolio_result examplePD 0).risk_score_used = 5 := by
  refine ⟨?_, ?_, rfl, rfl⟩
  · norm_num [map_risk_to_portfolio, exampleFrontier10, selectIndex, pyInt,
      pyGet, pyIdx]
  · norm_num [map_risk_to_portfolio, exampleFrontier10, selectIndex, pyInt,
      pyGet, pyIdx]

/-- Counterexample for C10: `map_risk_to_portfolio` does *not* leave the
caller's frontier unchanged: at risk score 10 on the three-point example
frontier, the frontier visible after the call holds the selected point with
its sub-threshold weight zeroed in place, which differs from the original
frontier. -/
theorem mapRisk_mutation_counterexample :
    (map_risk_to_portfolio 10 exampleFrontier).map (fun r => r.2) =
      some [pointA, pointB, { pointC with weights := zero_small pointC.weights }] ∧
    zero_small pointC.weights ≠ pointC.weights ∧
    (map_risk_to_portfolio 10 exampleFrontier).map (fun r => r.2) ≠
      some exampleFrontier := by
  have heval : (map_risk_to_portfolio 10 exampleFrontier).map (fun r => r.2) =
      some [pointA, pointB, { pointC with weights := zero_small pointC.weights }] := by
    norm_num [map_risk_to_portfolio, exampleFrontier, selectIndex, pyInt,
      pyGet, pyIdx, pySet]
    rfl
  have hz : zero_small pointC.weights ≠ pointC.weights := by
    intro h
    have h1 := congrFun h 1
    norm_num [zero_small, pointC] at h1
  refine ⟨heval, hz, ?_⟩
  rw [heval]
  intro h
  have h2 : [pointA, pointB, { pointC with weights := zero_small pointC.weights }] =
      exampleFrontier := Option.some_inj.mp h
  have h3 : { pointC with weights := zero_small pointC.weights } = pointC := by
    have := congrArg (fun l => l.get? 2) h2
    simpa [exampleFrontier] using this
  exact hz (congrArg FrontierPoint.weights h3)

/-- Amended claim C10: For every non-empty frontier and risk score in
`[1,10]` selecting point `p`, the caller's frontier after the call is the
original frontier with the selected entry's weight array replaced by its
zeroed (below-0.001 set to 0, *not* renormalized) version; every other
frontier entry is unchanged. -/
theorem mapRisk_mutates_selected_point (s : ℚ) (F : List FrontierPoint)
    (p : FrontierPoint) (h1 : 1 ≤ s) (h10 : s ≤ 10)
    (hp : F.get? (selectIndex s F.length).toNat = some p) :
    (map_risk_to_portfolio s F).map (fun r => r.2) =
      some (F.set (selectIndex s F.length).toNat
        { p with weights := zero_small p.weights }) ∧
    (∀ j : ℕ, j ≠ (selectIndex s F.length).toNat →
      (F.set (selectIndex s F.length).toNat
        { p with weights := zero_small p.weights }).get? j = F.get? j) ∧
    (F.set (selectIndex s F.length).toNat
        { p with weights := zero_small p.weights }).get?
      (selectIndex s F.length).toNat =
      some { p with weights := zero_small p.weights } := by
  have hF : F ≠ [] := by
    intro h; subst h; simp at hp
  have hL : 1 ≤ F.length := List.length_pos.mpr hF
  have h0 := selectIndex_nonneg s F.length h1 hL
  have hlt := selectIndex_lt s F.length h1 h10 hL
  have hget := (pyGet_of_bounds F (selectIndex s F.length) h0 hlt).trans hp
  have htn : (selectIndex s F.length).toNat < F.length := by omega
  have hne : F.isEmpty = false := by
    cases F with
    | nil => exact absurd rfl hF
    | cons a l => rfl
  refine ⟨?_, ?_, ?_⟩
  · simp [map_risk_to_portfolio, hne, hget,
      pySet_of_bounds F (selectIndex s F.length) _ h0 hlt]
  · intro j hj
    simp [List.get?_eq_getElem?, List.getElem?_set_ne (Ne.symm hj)]
  · simp [List.get?_eq_getElem?, List.getElem?_set_eq_of_lt _ htn]

/-- Witness for the amended C10: The amended theorem instantiated at risk
score 10 on the three-point example frontier, which selects `pointC`. -/
theorem mapRisk_mutates_selected_point_witness :
    (exampleFrontier.get? (selectIndex 10 exampleFrontier.length).toNat =
        some pointC) ∧
    ((map_risk_to_portfolio 10 exampleFrontier).map (fun r => r.2) =
      some (exampleFrontier.set (selectIndex 10 exampleFrontier.length).toNat
        { pointC with weights := zero_small pointC.weights }) ∧
    (∀ j : ℕ, j ≠ (selectIndex 10 exampleFrontier.length).toNat →
      (exampleFrontier.set (selectIndex 10 exampleFrontier.length).toNat
        { pointC with weights := zero_small pointC.weights }).get? j =
        exampleFrontier.get? j) ∧
    (exampleFrontier.set (selectIndex 10 exampleFrontier.length).toNat
        { pointC with weights := zero_small pointC.weights }).get?
      (selectIndex 10 exampleFrontier.length).toNat =
      some { pointC with weights := zero_small pointC.weights }) := by
  have hp : exampleFrontier.get? (selectIndex 10 exampleFrontier.length).toNat =
      some pointC := by
    norm_num [selectIndex, pyInt, exampleFrontier]
    rfl
  exact ⟨hp, mapRisk_mutates_selected_point 10 exampleFrontier pointC
    (by norm_num) (by norm_num) hp⟩

end MPT
